import Mathlib

/-!
# photos-location: a shallow embedding of `photos.go`

The program walks a directory, hands every image file to `getExif`, and for
files carrying a GPS coordinate calls `getLocation`, which queries a
nearby-place-search service and classifies the answer by its status string.

The embedding is a writer-style process monad: every function of the source
becomes a function returning the events it produced (log lines, calls, the HTTP
request) together with the way it ended (normal return, `os.Exit`, or a Go
run-time panic).  Everything the operating system, the EXIF library and the
remote service answer is an explicit input.
-/

namespace PhotosLocation

/-! ## Values -/

/-- A `float64`, as sign, mantissa and exponent (value `± mant * 2 ^ exp`), plus
the infinities and NaN.  Both signed zeros are the values with `mant = 0`. -/
inductive Float64 where
  | finite (neg : Bool) (mant : Nat) (exp : Int)
  | inf (neg : Bool)
  | nan
  deriving DecidableEq, Repr

namespace Float64

/-- The zero value of a Go `float64` variable. -/
def zero : Float64 := .finite false 0 0

/-- Go `x == 0` on a `float64`: true for `+0` and `-0`, false for everything
else, NaN and the infinities included. -/
def isZero : Float64 → Bool
  | .finite _ 0 _ => true
  | _ => false

/-- Go `x != 0` on a `float64`. -/
def neZero (x : Float64) : Bool := !x.isZero

end Float64

/-- Go `error` values, identified by their message. -/
abbrev GoError := String

/-- The value formats of `tiff.Tag` (goexif). -/
inductive Format where
  | intVal | floatVal | ratVal | stringVal | undefVal | otherVal
  deriving DecidableEq, Repr

/-- The fields of `tiff.Tag` (goexif) that `photos.go` reaches: the format and
the rational values. -/
structure Tag where
  format : Format
  ratVals : List (Int × Int)
  deriving DecidableEq, Repr

/-- A `time.Time`, as nanoseconds since the zero time. -/
structure Time where
  nanos : Int
  deriving DecidableEq, Repr

/-- The zero value of `time.Time`. -/
def Time.zero : Time := ⟨0⟩

/-- The EXIF field names `getExif` asks for. -/
inductive FieldName where
  | Model | FocalLength
  deriving DecidableEq, Repr

/-- A decoded `*exif.Exif`: what `x.Get`, `x.DateTime` and `x.LatLong` have to
work with.  A facet that the container lacks is `none`. -/
structure Exif where
  model : Option Tag
  focalLength : Option Tag
  dateTime : Option Time
  latLong : Option (Float64 × Float64)
  deriving DecidableEq, Repr

/-- An element of `GoogleMapsResp.Results`; `Name` is the only field read. -/
structure Place where
  Name : String
  deriving DecidableEq, Repr

/-- The part of `GoogleMapsResp` (lines 26-66) that `getLocation` reads. -/
structure GoogleMapsResp where
  Results : List Place
  Status : String
  deriving DecidableEq, Repr

/-- The zero value of `var googleResp GoogleMapsResp` (line 159). -/
def GoogleMapsResp.zero : GoogleMapsResp := ⟨[], ""⟩

/-- A `*string`: an address and the string stored there.  `flag.String`
(line 21) returns such a pointer. -/
structure StringPtr where
  addr : Nat
  val : String
  deriving DecidableEq, Repr

/-! ## Processes -/

/-- The Go run-time panics this program can raise. -/
inductive Fault where
  | nilDereference
  | indexOutOfRange
  deriving DecidableEq, Repr

/-- Severities of the `stdlog` logger. -/
inductive Level where
  | debug | info | warning | error
  deriving DecidableEq, Repr

/-- An operand handed to a logger call or to `fmt.Sprintf`. -/
inductive Arg where
  | str (s : String)
  | err (e : GoError)
  | tag (t : Option Tag)
  | int (n : Int)
  | float (x : Float64)
  | time (t : Time)
  deriving DecidableEq, Repr

/-- An operand handed to `fmt.Sprintf` in line 147: a `float64`, a `string`, or
a `*string`. -/
inductive Operand where
  | float (x : Float64)
  | str (s : String)
  | strPtr (p : StringPtr)
  deriving DecidableEq, Repr

/-- What a run does that can be observed. -/
inductive Event where
  | log (lvl : Level) (args : List Arg)
  | getExifCall (fname : String)
  | getLocationCall (lat long : Float64)
  | httpGet (url : String)
  | bodyClosed
  deriving DecidableEq, Repr

/-- How a piece of code ends: it returns a value, calls `os.Exit`, or panics. -/
inductive Res (α : Type) where
  | ok (a : α)
  | exit (code : Nat)
  | panic (f : Fault)
  deriving DecidableEq, Repr

/-- A process: the events produced, in order, and the ending. -/
structure Proc (α : Type) where
  events : List Event
  res : Res α
  deriving DecidableEq, Repr

namespace Proc

/-- Return without doing anything. -/
def ret {α : Type} (a : α) : Proc α := ⟨[], .ok a⟩

/-- Sequencing: the continuation runs only after a normal return. -/
def andThen {α β : Type} (m : Proc α) (f : α → Proc β) : Proc β :=
  match m.res with
  | .ok a => ⟨m.events ++ (f a).events, (f a).res⟩
  | .exit c => ⟨m.events, .exit c⟩
  | .panic p => ⟨m.events, .panic p⟩

/-- One observable event. -/
def emit (e : Event) : Proc Unit := ⟨[e], .ok ()⟩

/-- The call `os.Exit(code)`. -/
def osExit {α : Type} (code : Nat) : Proc α := ⟨[], .exit code⟩

/-- A run-time panic. -/
def raise {α : Type} (f : Fault) : Proc α := ⟨[], .panic f⟩

/-- The statement `defer`: the deferred event happens when the rest of the
function returns or panics, and does not happen on `os.Exit`. -/
def deferring {α : Type} (e : Event) (m : Proc α) : Proc α :=
  match m.res with
  | .exit c => ⟨m.events, .exit c⟩
  | r => ⟨m.events ++ [e], r⟩

/-- Whether the process ended by a normal return. -/
def returned {α : Type} (m : Proc α) : Bool :=
  match m.res with
  | .ok _ => true
  | _ => false

end Proc

instance : Monad Proc where
  pure := Proc.ret
  bind := Proc.andThen

/-- A call `logger.<Level>(args...)`. -/
def logger (lvl : Level) (args : List Arg) : Proc Unit := Proc.emit (.log lvl args)

/-- The exit status of the operating-system process: 0 when `main` returns, the
argument of `os.Exit`, and 2 when the Go run time aborts on a panic. -/
def exitStatus {α : Type} : Res α → Nat
  | .ok _ => 0
  | .exit c => c
  | .panic _ => 2

/-! ## Library functions -/

/-- The function `path.Ext`: the suffix from the last dot of the last
slash-separated element, or the empty string. -/
def Ext (path : String) : String :=
  go path.data.reverse []
where
  /-- Scan from the end of the path; `acc` is the part already passed. -/
  go : List Char → List Char → String
    | [], _ => ""
    | c :: rest, acc =>
      if c = '/' then ""
      else if c = '.' then String.mk ('.' :: acc)
      else go rest (c :: acc)

/-- The function `strings.ToLower`, on the ASCII letters.  (Go also maps
non-ASCII upper-case runes; none of them maps to a character of the four
extensions of `fileTypes`, so membership in that set is not affected.) -/
def ToLower (s : String) : String := String.mk (s.data.map Char.toLower)

/-- The method `(*tiff.Tag).Rat2` of goexif: it reads the receiver's `format`
field first, so a nil receiver is a nil-pointer dereference; a tag of another
format gives an error; otherwise `ratVals[i]` is indexed unchecked.  The result
is numerator, denominator, error. -/
def Rat2 (t : Option Tag) (i : Nat) : Proc (Int × Int × Option GoError) :=
  match t with
  | none => Proc.raise .nilDereference
  | some tg =>
    if tg.format ≠ .ratVal then pure (0, 0, some "tiff: type error")
    else
      match tg.ratVals.get? i with
      | none => Proc.raise .indexOutOfRange
      | some (n, d) => pure (n, d, none)

/-- The method `(*exif.Exif).Get`: the tag, or a nil tag and an error when the
field is not present. -/
def Exif.Get (x : Exif) (name : FieldName) : Option Tag × Option GoError :=
  match name with
  | .Model =>
    match x.model with
    | some t => (some t, none)
    | none => (none, some "exif: tag Model is not present")
  | .FocalLength =>
    match x.focalLength with
    | some t => (some t, none)
    | none => (none, some "exif: tag FocalLength is not present")

/-- The method `(*exif.Exif).DateTime`: the zero time and an error when there is
no usable date tag. -/
def Exif.DateTime (x : Exif) : Time × Option GoError :=
  match x.dateTime with
  | some t => (t, none)
  | none => (Time.zero, some "exif: tag DateTime is not present")

/-- The method `(*exif.Exif).LatLong`: zero values and an error when there is no
usable GPS position. -/
def Exif.LatLong (x : Exif) : Float64 × Float64 × Option GoError :=
  match x.latLong with
  | some (lat, long) => (lat, long, none)
  | none => (Float64.zero, Float64.zero, some "exif: tag GPSLatitude is not present")

/-- Hexadecimal digits of an address, as `fmt` prints a pointer after `0x`. -/
def hexDigits (n : Nat) : String := String.mk (Nat.toDigits 16 n)

/-- The Go type of an operand, as `fmt` prints it. -/
def Operand.typeName : Operand → String
  | .float _ => "float64"
  | .str _ => "string"
  | .strPtr _ => "*string"

/-- The default rendering of an operand, as `fmt` prints it inside an error
marker: `%g` for a `float64`, the text of a `string`, the address of a pointer
after `0x`. -/
def Operand.valueText (fmtG : Float64 → String) : Operand → String
  | .float x => fmtG x
  | .str s => s
  | .strPtr p => "0x" ++ hexDigits p.addr

/-- One verb of `fmt.Sprintf` applied to one operand, for the two verbs of the
format string of line 147, `%g` and `%s`.  `fmtG` is the `%g` rendering of a
`float64`.  A verb that does not fit the type of its operand is rendered as
`%!verb(type=value)`; a `*string` fits neither verb. -/
def formatVerb (fmtG : Float64 → String) (verb : Char) (a : Operand) : String :=
  match verb, a with
  | 's', .str s => s
  | 'g', .float x => fmtG x
  | v, a => "%!" ++ v.toString ++ "(" ++ a.typeName ++ "=" ++ a.valueText fmtG ++ ")"

/-- The marker `fmt` appends for operands that no verb consumed. -/
def extraOperands (fmtG : Float64 → String) (args : List Operand) : String :=
  match args with
  | [] => ""
  | _ :: _ =>
    "%!(EXTRA " ++
      ", ".intercalate (args.map fun a => a.typeName ++ "=" ++ a.valueText fmtG) ++ ")"

/-- The scan of a format string by `fmt.Sprintf`: text is copied, and a percent
sign with its verb consumes the next operand (`%%` is a literal percent sign).
The flag tells that the preceding character was a percent sign still waiting
for its verb. -/
def sprintfAux (fmtG : Float64 → String) : List Char → Bool → List Operand → List Char
  | [], false, args => (extraOperands fmtG args).data
  | [], true, args => "%!(NOVERB)".data ++ (extraOperands fmtG args).data
  | c :: rest, false, args =>
    if c = '%' then sprintfAux fmtG rest true args
    else c :: sprintfAux fmtG rest false args
  | v :: rest, true, args =>
    if v = '%' then '%' :: sprintfAux fmtG rest false args
    else
      match args with
      | a :: more => (formatVerb fmtG v a).data ++ sprintfAux fmtG rest false more
      | [] => ("%!" ++ v.toString ++ "(MISSING)").data ++ sprintfAux fmtG rest false []

/-- The function `fmt.Sprintf`. -/
def Sprintf (fmtG : Float64 → String) (format : String) (args : List Operand) : String :=
  String.mk (sprintfAux fmtG format.data false args)

/-! ## The environment -/

/-- What the remote place-search service and the HTTP stack answer to one
request: `doErr` is the error of a `client.Do` that fails and returns a nil
response (no connection, timeout); `unmarshalErr` is the error of
`json.Unmarshal`; `googleResp` is the value of the variable after
`json.Unmarshal` (the zero value when the body is not valid JSON, since the
body is validated before anything is stored). -/
structure Lookup where
  doErr : Option GoError
  unmarshalErr : Option GoError
  googleResp : GoogleMapsResp
  deriving DecidableEq, Repr

/-- An `os.FileInfo`; `IsDir` is the only method called. -/
structure FileInfo where
  isDir : Bool
  deriving DecidableEq, Repr

/-- One element of `fileList` together with what the system answers while it is
processed: `os.Stat`, `os.Open`, `exif.Decode`, and the place-search request. -/
structure Entry where
  path : String
  stat : Except GoError FileInfo
  openErr : Option GoError
  decode : Except GoError Exif
  lookup : Lookup

/-- The process-wide flags (lines 20-24) and the `%g` rendering used by `fmt`. -/
structure Config where
  apiKey : StringPtr
  directory : String
  fmtG : Float64 → String

/-! ## The program -/

/-- The call `os.Stat(file)`: a nil `FileInfo` comes with every error. -/
def osStat (e : Entry) : Option FileInfo × Option GoError :=
  match e.stat with
  | .ok fi => (some fi, none)
  | .error err => (none, some err)

/-- The method call `fileInfo.IsDir()`: on a nil interface value it is a
nil-pointer dereference. -/
def IsDir (fileInfo : Option FileInfo) : Proc Bool :=
  match fileInfo with
  | some fi => pure fi.isDir
  | none => Proc.raise .nilDereference

/-- The set `fileTypes` of line 75. -/
def fileTypes : List String := [".jpg", ".jpeg", ".png", ".bmp"]

/-- The format string of line 147. -/
def requestFormat : String :=
  "https://maps.googleapis.com/maps/api/place/nearbysearch/json?location=%g,%g&radius=500&key=%s"

/-- The index expression `googleResp.Results[0]` of line 166. -/
def firstResult (googleResp : GoogleMapsResp) : Proc Place :=
  match googleResp.Results with
  | [] => Proc.raise .indexOutOfRange
  | p :: _ => pure p

/-- The status classification of `getLocation`, lines 165-184: six independent
`if` statements on `googleResp.Status`. -/
def classifyStatus (googleResp : GoogleMapsResp) : Proc Unit := do
  if googleResp.Status = "OK" then
    let first ← firstResult googleResp
    logger .info [.str "Location:", .str first.Name]
  if googleResp.Status = "ZERO_RESULTS" then
    logger .warning [.str "Location not found!"]
  if googleResp.Status = "REQUEST_DENIED" then
    logger .error [.str "Request denied!"]
  if googleResp.Status = "INVALID_REQUEST" then
    logger .warning [.str "Invalid request!"]
  if googleResp.Status = "UNKNOWN_ERROR" ∨ googleResp.Status = "" then
    logger .error [.str "Unknown error!"]
  if googleResp.Status = "OVER_QUERY_LIMIT" then
    logger .debug [.str "Google response:", .str googleResp.Status]
    logger .error [.str "Quota exceeded! Please wait several minutes..."]
    Proc.osExit 1

/-- The function `getLocation`, lines 144-185.  The operand for `%s` is the
variable `apiKey` itself, which is a `*string`.  `http.NewRequest` is given the
constant method `GET` and a URL it accepts, so its error branch (lines 150-152)
is not taken.  The operand `resp.Body` of the `defer` statement is evaluated at
the statement, with `resp` nil when `client.Do` failed. -/
def getLocation (cfg : Config) (net : Lookup) (lat long : Float64) : Proc Unit := do
  Proc.emit (.getLocationCall lat long)
  let request := Sprintf cfg.fmtG requestFormat [.float lat, .float long, .strPtr cfg.apiKey]
  Proc.emit (.httpGet request)
  match net.doErr with
  | some _ => Proc.raise .nilDereference
  | none =>
    Proc.deferring .bodyClosed (do
      if let some err := net.unmarshalErr then
        logger .error [.err err]
      classifyStatus net.googleResp)

/-- The function `getExif`, lines 104-142. -/
def getExif (cfg : Config) (e : Entry) : Proc (Option GoError) := do
  Proc.emit (.getExifCall e.path)
  logger .info [.str "File:", .str e.path]
  match e.openErr with
  | some err =>
    logger .error [.err err]
    pure (some err)
  | none =>
    match e.decode with
    | .error err =>
      logger .error [.err err]
      pure (some err)
    | .ok x =>
      let camModel := (x.Get .Model).1
      logger .debug [.tag camModel]
      let focal := (x.Get .FocalLength).1
      let rat ← Rat2 focal 0
      logger .debug [.str "Focal:", .int rat.1, .int rat.2.1]
      let tm := x.DateTime.1
      logger .debug [.str "Taken: ", .time tm]
      let lat := x.LatLong.1
      let long := x.LatLong.2.1
      logger .debug [.str "Latitude, Longitude: ", .float lat, .str ", ", .float long]
      if lat.neZero && long.neZero then
        getLocation cfg e.lookup lat long
      else
        logger .warning [.str "Can't get location!"]
      pure none

/-- The body of the loop of lines 86-101 for one element of `fileList`. -/
def loopBody (cfg : Config) (file : Entry) : Proc Unit := do
  let (fileInfo, err) := osStat file
  if let some er := err then
    logger .error [.err er]
  let isDir ← IsDir fileInfo
  if isDir then
    pure ()
  else if fileTypes.contains (ToLower (Ext file.path)) then
    let err ← getExif cfg file
    if let some er := err then
      logger .error [.err er]
  else
    pure ()

/-- The statement `for _, file := range fileList`. -/
def forRange {α : Type} : List α → (α → Proc Unit) → Proc Unit
  | [], _ => pure ()
  | a :: rest, body => do
    body a
    forRange rest body

/-- The function `main`, lines 68-102.  `fileList` is what the callback of
`filepath.Walk` collected, `walkErr` what `filepath.Walk` returned. -/
def main (cfg : Config) (fileList : List Entry) (walkErr : Option GoError) : Proc Unit := do
  if cfg.apiKey.val = "" then
    logger .error [.str "Api Key is mandatory!"]
    Proc.osExit 2
  if let some err := walkErr then
    logger .error [.err err]
  forRange fileList (loopBody cfg)

/-! ## Reading a run -/

/-- The result tags of the specification (section 3, GeocodeResult). -/
inductive GeocodeResult where
  | Resolved (name : String)
  | NoResults
  | InvalidRequest
  | Denied
  | QuotaExceeded
  | UnknownError
  deriving DecidableEq, Repr

/-- The outcome that a log line of `getLocation` reports, if it reports one. -/
def outcomeOf : Event → Option GeocodeResult
  | .log lvl [.str s] =>
    if lvl = .warning ∧ s = "Location not found!" then some .NoResults
    else if lvl = .error ∧ s = "Request denied!" then some .Denied
    else if lvl = .warning ∧ s = "Invalid request!" then some .InvalidRequest
    else if lvl = .error ∧ s = "Unknown error!" then some .UnknownError
    else if lvl = .error ∧ s = "Quota exceeded! Please wait several minutes..." then
      some .QuotaExceeded
    else none
  | .log lvl [.str s, .str name] =>
    if lvl = .info ∧ s = "Location:" then some (.Resolved name) else none
  | _ => none

/-- The outcomes reported during a run, in order. -/
def outcomes (evs : List Event) : List GeocodeResult := evs.filterMap outcomeOf

/-- The table of section 4.3 of the specification: the tag for a remote status,
with `first` the display name of the first candidate. -/
def specStatusTable (status : String) (first : String) : GeocodeResult :=
  if status = "OK" then .Resolved first
  else if status = "ZERO_RESULTS" then .NoResults
  else if status = "REQUEST_DENIED" then .Denied
  else if status = "INVALID_REQUEST" then .InvalidRequest
  else if status = "OVER_QUERY_LIMIT" then .QuotaExceeded
  else .UnknownError

/-- The seven remote status strings the specification lists. -/
def listedStatuses : List String :=
  ["OK", "ZERO_RESULTS", "REQUEST_DENIED", "INVALID_REQUEST", "OVER_QUERY_LIMIT",
    "UNKNOWN_ERROR", ""]

/-- The paths handed to `getExif` during a run, in order. -/
def handed (evs : List Event) : List String :=
  evs.filterMap fun ev =>
    match ev with
    | .getExifCall fname => some fname
    | _ => none

/-- The coordinates handed to `getLocation` during a run, in order. -/
def resolved (evs : List Event) : List (Float64 × Float64) :=
  evs.filterMap fun ev =>
    match ev with
    | .getLocationCall lat long => some (lat, long)
    | _ => none

/-- The request URLs sent during a run, in order. -/
def requests (evs : List Event) : List String :=
  evs.filterMap fun ev =>
    match ev with
    | .httpGet url => some url
    | _ => none

/-- Whether an element of `fileList` passes the two tests of lines 91-94. -/
def isCandidate (file : Entry) : Bool :=
  match file.stat with
  | .ok fi => !fi.isDir && fileTypes.contains (ToLower (Ext file.path))
  | .error _ => false

/-- The request URL as the specification describes it (sections 4.3 and 6):
the nearby-search endpoint with `location=<lat>,<lng>`, `radius=500` and
`key=<apiKey>`, for the key string `k`. -/
def specRequestURL (fmtG : Float64 → String) (lat long : Float64) (k : String) : String :=
  "https://maps.googleapis.com/maps/api/place/nearbysearch/json?location=" ++
    fmtG lat ++ "," ++ fmtG long ++ "&radius=500&key=" ++ k

/-- The coordinate `getExif` hands to `getLocation` for a file, when it gets
that far. -/
def lookupCoordinate (e : Entry) : Option (Float64 × Float64) :=
  match e.openErr, e.decode with
  | none, .ok x =>
    if (Rat2 (x.Get .FocalLength).1 0).returned ∧ x.LatLong.1.neZero ∧ x.LatLong.2.1.neZero then
      some (x.LatLong.1, x.LatLong.2.1)
    else none
  | _, _ => none

/-- The last step of `getExif`, lines 135-141. -/
def locate (cfg : Config) (net : Lookup) (lat long : Float64) : Proc (Option GoError) :=
  if (lat.neZero && long.neZero) = true then
    Proc.andThen (getLocation cfg net lat long) (fun _ => Proc.ret none)
  else
    Proc.andThen (logger .warning [.str "Can't get location!"]) (fun _ => Proc.ret none)

/-! ## Sample inputs -/

/-- A `%g` rendering for the examples: exact on integral values. -/
def sampleFmtG : Float64 → String
  | .finite neg mant 0 => (if neg then "-" else "") ++ toString mant
  | .finite neg mant exp => (if neg then "-" else "") ++ toString mant ++ "p" ++ toString exp
  | .inf neg => if neg then "-Inf" else "+Inf"
  | .nan => "NaN"

/-- A configuration with the key `abc` stored at address `0xc000010250`. -/
def sampleConfig : Config := ⟨⟨0xc000010250, "abc"⟩, "/photos", sampleFmtG⟩

/-- A container with a camera model, a focal length of 50/1 and a position. -/
def sampleExif : Exif :=
  ⟨some ⟨.stringVal, []⟩, some ⟨.ratVal, [(50, 1)]⟩, some ⟨1500000000⟩,
    some (.finite false 37 0, .finite true 122 0)⟩

/-- A container like `sampleExif` without the focal-length tag. -/
def sampleExifNoFocal : Exif :=
  ⟨some ⟨.stringVal, []⟩, none, some ⟨1500000000⟩,
    some (.finite false 37 0, .finite true 122 0)⟩

/-- An answer of the service with the given status and two candidates. -/
def sampleLookup (status : String) : Lookup :=
  ⟨none, none, ⟨[⟨"Golden Gate Park"⟩, ⟨"Stow Lake"⟩], status⟩⟩

/-- A regular file that opens and decodes to `x`, with the answer `net`. -/
def sampleFile (path : String) (x : Exif) (net : Lookup) : Entry :=
  ⟨path, .ok ⟨false⟩, none, .ok x, net⟩

/-- A walk over two image files: the first decodes but has no focal-length tag,
the second is complete. -/
def sampleWalk : List Entry :=
  [sampleFile "a.jpg" sampleExifNoFocal (sampleLookup "OK"),
    sampleFile "b.jpg" sampleExif (sampleLookup "OK")]

/-! ## Lemmas on the process monad and the loop -/

theorem andThen_ok {α β : Type} (evs : List Event) (a : α) (f : α → Proc β) :
    Proc.andThen ⟨evs, .ok a⟩ f = ⟨evs ++ (f a).events, (f a).res⟩ := rfl

theorem andThen_exit {α β : Type} (evs : List Event) (c : Nat) (f : α → Proc β) :
    Proc.andThen ⟨evs, .exit c⟩ f = ⟨evs, .exit c⟩ := rfl

theorem andThen_panic {α β : Type} (evs : List Event) (p : Fault) (f : α → Proc β) :
    Proc.andThen ⟨evs, .panic p⟩ f = ⟨evs, .panic p⟩ := rfl

theorem forRange_cons {α : Type} (a : α) (rest : List α) (body : α → Proc Unit) :
    forRange (a :: rest) body = Proc.andThen (body a) (fun _ => forRange rest body) := rfl

theorem forRange_append {α : Type} (l₁ l₂ : List α) (body : α → Proc Unit) :
    forRange (l₁ ++ l₂) body = Proc.andThen (forRange l₁ body) (fun _ => forRange l₂ body) := by
  induction l₁ with
  | nil =>
    show forRange l₂ body = Proc.andThen ⟨[], .ok ()⟩ _
    rw [andThen_ok]
    rfl
  | cons a rest ih =>
    rw [List.cons_append, forRange_cons, forRange_cons, ih]
    obtain ⟨evs, r⟩ := body a
    cases r <;> simp [Proc.andThen]
    rename_i u
    obtain ⟨evs2, r2⟩ := forRange rest body
    cases r2 <;> simp

/-- Every event of the status classification is a log line. -/
theorem classifyStatus_events_log (g : GoogleMapsResp) :
    ∀ ev ∈ (classifyStatus g).events, ∃ lvl args, ev = .log lvl args := by
  obtain ⟨rs, s⟩ := g
  by_cases h1 : s = "OK" <;> by_cases h2 : s = "ZERO_RESULTS" <;>
  by_cases h3 : s = "REQUEST_DENIED" <;> by_cases h4 : s = "INVALID_REQUEST" <;>
  by_cases h5 : s = "UNKNOWN_ERROR" <;> by_cases h6 : s = "" <;>
  by_cases h7 : s = "OVER_QUERY_LIMIT" <;> cases rs <;>
  simp [classifyStatus, h1, h2, h3, h4, h5, h6, h7, bind, Proc.andThen, firstResult, logger,
    Proc.emit, Proc.raise, pure, Proc.ret, Proc.osExit]

/-- A reading of the events that ignores log lines finds nothing in the status
classification. -/
theorem classifyStatus_filterMap {β : Type} (f : Event → Option β)
    (hlog : ∀ lvl args, f (.log lvl args) = none) (g : GoogleMapsResp) :
    (classifyStatus g).events.filterMap f = [] := by
  have h := classifyStatus_events_log g
  rw [List.filterMap_eq_nil_iff]
  intro ev hev
  obtain ⟨lvl, args, rfl⟩ := h ev hev
  exact hlog lvl args

/-- The request string of line 147, evaluated. -/
theorem sprintf_request (fmtG : Float64 → String) (lat long : Float64) (p : StringPtr) :
    Sprintf fmtG requestFormat [.float lat, .float long, .strPtr p] =
      specRequestURL fmtG lat long ("%!s(*string=0x" ++ hexDigits p.addr ++ ")") := by
  apply String.ext
  simp [Sprintf, requestFormat, sprintfAux, formatVerb, hexDigits, specRequestURL,
    extraOperands, Operand.typeName, Operand.valueText]
  rfl

/-- The events of `getLocation`: the call, the request, and then only log lines
and the closing of the body. -/
theorem getLocation_events (cfg : Config) (net : Lookup) (lat long : Float64) :
    ∃ tail, (getLocation cfg net lat long).events =
        [Event.getLocationCall lat long,
          Event.httpGet (Sprintf cfg.fmtG requestFormat
            [.float lat, .float long, .strPtr cfg.apiKey])] ++ tail ∧
      ∀ ev ∈ tail, ev = .bodyClosed ∨ ∃ lvl args, ev = .log lvl args := by
  have hq := classifyStatus_events_log net.googleResp
  unfold getLocation
  generalize classifyStatus net.googleResp = cs at hq ⊢
  obtain ⟨evs, r⟩ := cs
  simp only at hq
  cases hd : net.doErr with
  | some err => exact ⟨[], rfl, by simp⟩
  | none =>
    cases hu : net.unmarshalErr with
    | none =>
      cases r with
      | ok u => exact ⟨evs ++ [Event.bodyClosed], rfl, by
          intro ev hev
          rcases List.mem_append.1 hev with h | h
          · exact Or.inr (hq ev h)
          · exact Or.inl (List.mem_singleton.1 h)⟩
      | exit c => exact ⟨evs, rfl, fun ev hev => Or.inr (hq ev hev)⟩
      | panic p => exact ⟨evs ++ [Event.bodyClosed], rfl, by
          intro ev hev
          rcases List.mem_append.1 hev with h | h
          · exact Or.inr (hq ev h)
          · exact Or.inl (List.mem_singleton.1 h)⟩
    | some e =>
      cases r with
      | ok u => exact ⟨Event.log .error [.err e] :: evs ++ [Event.bodyClosed], rfl, by
          intro ev hev
          rcases List.mem_append.1 hev with h | h
          · rcases List.mem_cons.1 h with h | h
            · exact Or.inr ⟨_, _, h⟩
            · exact Or.inr (hq ev h)
          · exact Or.inl (List.mem_singleton.1 h)⟩
      | exit c => exact ⟨Event.log .error [.err e] :: evs, rfl, by
          intro ev hev
          rcases List.mem_cons.1 hev with h | h
          · exact Or.inr ⟨_, _, h⟩
          · exact Or.inr (hq ev h)⟩
      | panic p => exact ⟨Event.log .error [.err e] :: evs ++ [Event.bodyClosed], rfl, by
          intro ev hev
          rcases List.mem_append.1 hev with h | h
          · rcases List.mem_cons.1 h with h | h
            · exact Or.inr ⟨_, _, h⟩
            · exact Or.inr (hq ev h)
          · exact Or.inl (List.mem_singleton.1 h)⟩

/-- A reading of the events that ignores log lines and the closing of the body
sees of `getLocation` only the call and the request. -/
theorem getLocation_filterMap {β : Type} (f : Event → Option β)
    (hlog : ∀ lvl args, f (.log lvl args) = none) (hclose : f .bodyClosed = none)
    (cfg : Config) (net : Lookup) (lat long : Float64) :
    (getLocation cfg net lat long).events.filterMap f =
      [Event.getLocationCall lat long,
        Event.httpGet (Sprintf cfg.fmtG requestFormat
          [.float lat, .float long, .strPtr cfg.apiKey])].filterMap f := by
  obtain ⟨tail, h, htail⟩ := getLocation_events cfg net lat long
  have ht : tail.filterMap f = [] := by
    rw [List.filterMap_eq_nil_iff]
    intro ev hev
    rcases htail ev hev with rfl | ⟨lvl, args, rfl⟩
    · exact hclose
    · exact hlog lvl args
  rw [h, List.filterMap_append, ht, List.append_nil]

theorem Rat2_events (t : Option Tag) (i : Nat) : (Rat2 t i).events = [] := by
  unfold Rat2
  cases t with
  | none => rfl
  | some tg =>
    simp only
    split
    · rfl
    · split <;> rfl

theorem getExif_of_decoded (cfg : Config) (e : Entry) (x : Exif)
    (ho : e.openErr = none) (hd : e.decode = .ok x) :
    getExif cfg e =
      Proc.andThen
        ⟨[.getExifCall e.path, .log .info [.str "File:", .str e.path],
          .log .debug [.tag (x.Get .Model).1]], .ok ()⟩ (fun _ =>
      Proc.andThen (Rat2 (x.Get .FocalLength).1 0) (fun rat =>
      Proc.andThen
        ⟨[.log .debug [.str "Focal:", .int rat.1, .int rat.2.1],
          .log .debug [.str "Taken: ", .time x.DateTime.1],
          .log .debug [.str "Latitude, Longitude: ", .float x.LatLong.1, .str ", ",
            .float x.LatLong.2.1]], .ok ()⟩ (fun _ =>
      locate cfg e.lookup x.LatLong.1 x.LatLong.2.1))) := by
  unfold getExif
  simp only [ho, hd]
  rfl

theorem getExif_of_open_error (cfg : Config) (e : Entry) (err : GoError)
    (ho : e.openErr = some err) :
    getExif cfg e =
      ⟨[.getExifCall e.path, .log .info [.str "File:", .str e.path], .log .error [.err err]],
        .ok (some err)⟩ := by
  unfold getExif
  simp only [ho]
  rfl

theorem getExif_of_decode_error (cfg : Config) (e : Entry) (err : GoError)
    (ho : e.openErr = none) (hd : e.decode = .error err) :
    getExif cfg e =
      ⟨[.getExifCall e.path, .log .info [.str "File:", .str e.path], .log .error [.err err]],
        .ok (some err)⟩ := by
  unfold getExif
  simp only [ho, hd]
  rfl

theorem locate_filterMap {β : Type} (f : Event → Option β)
    (hlog : ∀ lvl args, f (.log lvl args) = none) (hclose : f .bodyClosed = none)
    (cfg : Config) (net : Lookup) (lat long : Float64) :
    (locate cfg net lat long).events.filterMap f =
      if (lat.neZero && long.neZero) = true then
        [Event.getLocationCall lat long,
          Event.httpGet (Sprintf cfg.fmtG requestFormat
            [.float lat, .float long, .strPtr cfg.apiKey])].filterMap f
      else [] := by
  unfold locate
  by_cases hn : (lat.neZero && long.neZero) = true
  · rw [if_pos hn, if_pos hn, ← getLocation_filterMap f hlog hclose cfg net lat long]
    obtain ⟨gevs, gres⟩ := getLocation cfg net lat long
    cases gres <;> simp [Proc.andThen, Proc.ret]
  · rw [if_neg hn, if_neg hn]
    simp [Proc.andThen, Proc.ret, logger, Proc.emit, hlog]

theorem getExif_filterMap {β : Type} (f : Event → Option β)
    (hlog : ∀ lvl args, f (.log lvl args) = none) (hclose : f .bodyClosed = none)
    (cfg : Config) (e : Entry) :
    (getExif cfg e).events.filterMap f =
      [Event.getExifCall e.path].filterMap f ++
        match lookupCoordinate e with
        | some (lat, long) =>
          [Event.getLocationCall lat long,
            Event.httpGet (Sprintf cfg.fmtG requestFormat
              [.float lat, .float long, .strPtr cfg.apiKey])].filterMap f
        | none => [] := by
  cases ho : e.openErr with
  | some err =>
    rw [getExif_of_open_error cfg e err ho]
    simp [lookupCoordinate, ho, List.filterMap_cons, hlog]
  | none =>
    cases hd : e.decode with
    | error err =>
      rw [getExif_of_decode_error cfg e err ho hd]
      simp [lookupCoordinate, ho, hd, List.filterMap_cons, hlog]
    | ok x =>
      rw [getExif_of_decoded cfg e x ho hd]
      have hl := locate_filterMap f hlog hclose cfg e.lookup x.LatLong.1 x.LatLong.2.1
      have hr := Rat2_events (x.Get .FocalLength).1 0
      simp only [lookupCoordinate, ho, hd]
      generalize Rat2 (x.Get .FocalLength).1 0 = r at hr ⊢
      generalize locate cfg e.lookup x.LatLong.1 x.LatLong.2.1 = lc at hl ⊢
      obtain ⟨revs, rres⟩ := r
      simp only at hr
      subst hr
      cases rres with
      | ok v =>
        by_cases hn : (x.LatLong.1.neZero && x.LatLong.2.1.neZero) = true
        · have hn2 := hn
          rw [Bool.and_eq_true] at hn2
          simp [Proc.andThen, Proc.returned, List.filterMap_cons, List.filterMap_append, hlog,
            hl, hn, hn2]
          cases f (Event.getExifCall e.path) <;> rfl
        · have hn2 := hn
          rw [Bool.and_eq_true] at hn2
          simp [Proc.andThen, Proc.returned, List.filterMap_cons, List.filterMap_append, hlog,
            hl, hn, hn2]
      | exit c =>
        simp [Proc.andThen, Proc.returned, List.filterMap_cons, hlog]
      | panic p =>
        simp [Proc.andThen, Proc.returned, List.filterMap_cons, hlog]

theorem handed_getExif (cfg : Config) (e : Entry) :
    handed (getExif cfg e).events = [e.path] := by
  unfold handed
  rw [getExif_filterMap _ (fun _ _ => rfl) rfl]
  cases lookupCoordinate e with
  | none => rfl
  | some c => rfl

theorem resolved_getExif (cfg : Config) (e : Entry) :
    resolved (getExif cfg e).events = (lookupCoordinate e).toList := by
  unfold resolved
  rw [getExif_filterMap _ (fun _ _ => rfl) rfl]
  cases lookupCoordinate e with
  | none => rfl
  | some c => rfl

theorem requests_getExif (cfg : Config) (e : Entry) :
    requests (getExif cfg e).events =
      (lookupCoordinate e).toList.map fun c =>
        Sprintf cfg.fmtG requestFormat [.float c.1, .float c.2, .strPtr cfg.apiKey] := by
  unfold requests
  rw [getExif_filterMap _ (fun _ _ => rfl) rfl]
  cases lookupCoordinate e with
  | none => rfl
  | some c => rfl

theorem loopBody_of_stat_error (cfg : Config) (e : Entry) (err : GoError)
    (hs : e.stat = .error err) :
    loopBody cfg e = ⟨[.log .error [.err err]], .panic .nilDereference⟩ := by
  unfold loopBody osStat
  simp only [hs]
  rfl

theorem loopBody_of_not_candidate (cfg : Config) (e : Entry) (fi : FileInfo)
    (hs : e.stat = .ok fi) (hc : isCandidate e = false) :
    loopBody cfg e = ⟨[], .ok ()⟩ := by
  unfold isCandidate at hc
  simp only [hs] at hc
  unfold loopBody osStat
  simp only [hs]
  cases hdir : fi.isDir
  · simp only [hdir, Bool.not_false, Bool.true_and] at hc
    simp only [bind, Proc.andThen, IsDir, pure, Proc.ret, hdir, hc]
    rfl
  · simp only [bind, Proc.andThen, IsDir, pure, Proc.ret, hdir]
    rfl

theorem loopBody_of_candidate (cfg : Config) (e : Entry) (hc : isCandidate e = true) :
    loopBody cfg e =
      Proc.andThen (getExif cfg e) (fun err =>
        match err with
        | some er => logger .error [.err er]
        | none => Proc.ret ()) := by
  unfold isCandidate at hc
  cases hs : e.stat with
  | error err => simp [hs] at hc
  | ok fi =>
    simp only [hs, Bool.and_eq_true, Bool.not_eq_true'] at hc
    unfold loopBody osStat
    simp only [hs]
    simp only [bind, Proc.andThen, IsDir, pure, Proc.ret, hc.1, hc.2, List.nil_append]
    generalize getExif cfg e = g
    obtain ⟨gevs, gres⟩ := g
    rcases gres with a | c | f
    · cases a <;> rfl
    · rfl
    · rfl

theorem handed_loopBody (cfg : Config) (e : Entry) :
    handed (loopBody cfg e).events = if isCandidate e = true then [e.path] else [] := by
  by_cases hc : isCandidate e = true
  · rw [if_pos hc, loopBody_of_candidate cfg e hc]
    have h := handed_getExif cfg e
    generalize getExif cfg e = g at h ⊢
    obtain ⟨gevs, gres⟩ := g
    simp only at h
    rcases gres with a | c | f
    · cases a <;> simp [Proc.andThen, Proc.ret, logger, Proc.emit, handed, List.filterMap_append]
        <;> exact h
    · exact h
    · exact h
  · rw [if_neg hc]
    cases hs : e.stat with
    | error err => rw [loopBody_of_stat_error cfg e err hs]; rfl
    | ok fi =>
      rw [loopBody_of_not_candidate cfg e fi hs (by simpa using hc)]
      rfl

theorem returned_loopBody (cfg : Config) (e : Entry) (fi : FileInfo) (hs : e.stat = .ok fi)
    (hret : isCandidate e = true → (getExif cfg e).returned = true) :
    (loopBody cfg e).returned = true := by
  by_cases hc : isCandidate e = true
  · rw [loopBody_of_candidate cfg e hc]
    have h := hret hc
    generalize getExif cfg e = g at h ⊢
    obtain ⟨gevs, gres⟩ := g
    rcases gres with a | c | f
    · cases a <;> rfl
    · simp [Proc.returned] at h
    · simp [Proc.returned] at h
  · rw [loopBody_of_not_candidate cfg e fi hs (by simpa using hc)]
    rfl

/-- When no step of the loop ends the process, the paths handed to `getExif` are
the candidates of `fileList`, in order, each once. -/
theorem forRange_handed_of_returned (cfg : Config) (files : List Entry)
    (hstat : ∀ e ∈ files, ∃ fi, e.stat = .ok fi)
    (hret : ∀ e ∈ files, isCandidate e = true → (getExif cfg e).returned = true) :
    (forRange files (loopBody cfg)).returned = true ∧
    handed (forRange files (loopBody cfg)).events =
      (files.filter (fun e => isCandidate e)).map Entry.path := by
  induction files with
  | nil => exact ⟨rfl, rfl⟩
  | cons e rest ih =>
    obtain ⟨fi, hfi⟩ := hstat e (List.mem_cons_self _ _)
    have hr := returned_loopBody cfg e fi hfi (hret e (List.mem_cons_self _ _))
    have hh := handed_loopBody cfg e
    obtain ⟨ih1, ih2⟩ := ih (fun a ha => hstat a (List.mem_cons_of_mem _ ha))
      (fun a ha => hret a (List.mem_cons_of_mem _ ha))
    rw [forRange_cons]
    generalize loopBody cfg e = b at hr hh ⊢
    obtain ⟨bevs, bres⟩ := b
    rcases bres with u | c | f
    · simp only [andThen_ok]
      refine ⟨ih1, ?_⟩
      simp only at hh
      unfold handed at hh ih2 ⊢
      rw [List.filterMap_append, hh, ih2]
      by_cases hc : isCandidate e = true
      · simp [hc]
      · simp [hc]
    · simp [Proc.returned] at hr
    · simp [Proc.returned] at hr

theorem main_of_key (cfg : Config) (files : List Entry) (walkErr : Option GoError)
    (hkey : cfg.apiKey.val ≠ "") :
    main cfg files walkErr =
      ⟨(match walkErr with
          | some err => [Event.log .error [.err err]]
          | none => []) ++ (forRange files (loopBody cfg)).events,
        (forRange files (loopBody cfg)).res⟩ := by
  unfold main
  simp only [hkey, if_false]
  cases walkErr <;> rfl

theorem main_of_missing_key (cfg : Config) (files : List Entry) (walkErr : Option GoError)
    (hkey : cfg.apiKey.val = "") :
    main cfg files walkErr = ⟨[.log .error [.str "Api Key is mandatory!"]], .exit 2⟩ := by
  unfold main
  simp only [hkey, if_true]
  rfl

theorem classifyStatus_quota (rs : List Place) :
    classifyStatus ⟨rs, "OVER_QUERY_LIMIT"⟩ =
      ⟨[.log .debug [.str "Google response:", .str "OVER_QUERY_LIMIT"],
        .log .error [.str "Quota exceeded! Please wait several minutes..."]], .exit 1⟩ := rfl

theorem getLocation_quota (cfg : Config) (net : Lookup) (lat long : Float64)
    (hdo : net.doErr = none) (hq : net.googleResp.Status = "OVER_QUERY_LIMIT") :
    (getLocation cfg net lat long).res = .exit 1 := by
  obtain ⟨d, u, ⟨rs, st⟩⟩ := net
  simp only at hdo hq
  subst hdo hq
  cases u <;> rfl

theorem loopBody_quota (cfg : Config) (e : Entry) (x : Exif)
    (hcand : isCandidate e = true) (hopen : e.openErr = none) (hdec : e.decode = .ok x)
    (hfocal : (Rat2 (x.Get .FocalLength).1 0).returned = true)
    (hlat : x.LatLong.1.neZero = true) (hlong : x.LatLong.2.1.neZero = true)
    (hdo : e.lookup.doErr = none)
    (hquota : e.lookup.googleResp.Status = "OVER_QUERY_LIMIT") :
    (loopBody cfg e).res = .exit 1 := by
  rw [loopBody_of_candidate cfg e hcand, getExif_of_decoded cfg e x hopen hdec]
  have hr := Rat2_events (x.Get .FocalLength).1 0
  have hg := getLocation_quota cfg e.lookup x.LatLong.1 x.LatLong.2.1 hdo hquota
  unfold locate
  generalize Rat2 (x.Get .FocalLength).1 0 = r at hr hfocal ⊢
  generalize getLocation cfg e.lookup x.LatLong.1 x.LatLong.2.1 = g at hg ⊢
  obtain ⟨revs, rres⟩ := r
  obtain ⟨gevs, gres⟩ := g
  simp only at hg
  subst hg
  rcases rres with v | c | f
  · simp [Proc.andThen, hlat, hlong]
  · simp [Proc.returned] at hfocal
  · simp [Proc.returned] at hfocal

/-- A file that fails to open or to decode makes `getExif` return its error:
the loop goes on with the next file. -/
theorem returned_getExif_of_error (cfg : Config) (e : Entry)
    (h : e.openErr ≠ none ∨ ∃ err, e.decode = .error err) :
    (getExif cfg e).returned = true := by
  cases ho : e.openErr with
  | some err => rw [getExif_of_open_error cfg e err ho]; rfl
  | none =>
    rcases h with h | ⟨err, hd⟩
    · exact absurd ho h
    · rw [getExif_of_decode_error cfg e err ho hd]; rfl

/-- When the key is set, every stat succeeds and no call of `getExif` ends the
process, `main` returns and the paths handed to `getExif` are the candidates of
`fileList`, in walk order, each once. -/
theorem main_handed_of_returned (cfg : Config) (hkey : cfg.apiKey.val ≠ "")
    (files : List Entry) (walkErr : Option GoError)
    (hstat : ∀ e ∈ files, ∃ fi, e.stat = .ok fi)
    (hret : ∀ e ∈ files, isCandidate e = true → (getExif cfg e).returned = true) :
    (main cfg files walkErr).returned = true ∧
    handed (main cfg files walkErr).events =
      (files.filter (fun e => isCandidate e)).map Entry.path := by
  obtain ⟨h1, h2⟩ := forRange_handed_of_returned cfg files hstat hret
  rw [main_of_key cfg files walkErr hkey]
  refine ⟨h1, ?_⟩
  unfold handed at h2 ⊢
  rw [List.filterMap_append, h2]
  cases walkErr <;> rfl

/-! ## The claims -/

/-- C1: for each of the seven listed status strings and every non-empty results
list, the status classification reports exactly one outcome, the one of the
table of section 4.3, also when read off the whole of `getLocation`; for `OK`
the reported name is that of the first element of the results list, whatever
follows it; the classification ends the process (with `os.Exit(1)`) for
`OVER_QUERY_LIMIT` and returns for the six others. -/
theorem C1_listed_status_one_outcome (s : String) (hs : s ∈ listedStatuses)
    (first : Place) (more : List Place) (cfg : Config) (lat long : Float64) :
    outcomes (classifyStatus ⟨first :: more, s⟩).events = [specStatusTable s first.Name] ∧
    outcomes (getLocation cfg ⟨none, none, ⟨first :: more, s⟩⟩ lat long).events =
      [specStatusTable s first.Name] ∧
    (s = "OK" → outcomes (classifyStatus ⟨first :: more, s⟩).events = [.Resolved first.Name]) ∧
    (classifyStatus ⟨first :: more, s⟩).res =
      (if s = "OVER_QUERY_LIMIT" then .exit 1 else .ok ()) := by
  simp only [listedStatuses, List.mem_cons, List.mem_singleton, List.not_mem_nil, or_false] at hs
  rcases hs with rfl | rfl | rfl | rfl | rfl | rfl | rfl <;>
    refine ⟨rfl, rfl, ?_, rfl⟩ <;> intro h <;> first | rfl | exact absurd h (by decide)

/-- C1, at the status `OK` with two candidates. -/
theorem C1_listed_status_one_outcome_witness :
    "OK" ∈ listedStatuses ∧
    outcomes (classifyStatus ⟨[⟨"Golden Gate Park"⟩, ⟨"Stow Lake"⟩], "OK"⟩).events =
      [.Resolved "Golden Gate Park"] :=
  ⟨by decide,
    (C1_listed_status_one_outcome "OK" (by decide) ⟨"Golden Gate Park"⟩ [⟨"Stow Lake"⟩]
      sampleConfig (.finite false 37 0) (.finite true 122 0)).1⟩

/-- C5, as the specification has it, fails: for the unlisted status `NOT_FOUND`
the classification reports no outcome, while it reports `UnknownError` for
`UNKNOWN_ERROR` and for the empty status. -/
theorem C5_unlisted_status_counterexample :
    "NOT_FOUND" ∉ listedStatuses ∧
    outcomes (classifyStatus ⟨[⟨"Stow Lake"⟩], "NOT_FOUND"⟩).events = [] ∧
    outcomes (classifyStatus ⟨[⟨"Stow Lake"⟩], "UNKNOWN_ERROR"⟩).events = [.UnknownError] ∧
    outcomes (classifyStatus ⟨[⟨"Stow Lake"⟩], ""⟩).events = [.UnknownError] := by
  decide

/-- C5, amended: for every status string other than the seven listed ones, and
every results list, the status classification logs nothing, reports no outcome
and returns normally; `getLocation` as a whole then reports no outcome
either. -/
theorem C5_unlisted_status_no_outcome (s : String) (hs : s ∉ listedStatuses)
    (rs : List Place) (cfg : Config) (lat long : Float64) :
    classifyStatus ⟨rs, s⟩ = ⟨[], .ok ()⟩ ∧
    outcomes (classifyStatus ⟨rs, s⟩).events = [] ∧
    outcomes (getLocation cfg ⟨none, none, ⟨rs, s⟩⟩ lat long).events = [] ∧
    (getLocation cfg ⟨none, none, ⟨rs, s⟩⟩ lat long).res = .ok () := by
  simp only [listedStatuses, List.mem_cons, List.mem_singleton, List.not_mem_nil, or_false,
    not_or] at hs
  obtain ⟨h1, h2, h3, h4, h5, h6, h7⟩ := hs
  have h : classifyStatus ⟨rs, s⟩ = ⟨[], .ok ()⟩ := by
    simp [classifyStatus, h1, h2, h3, h4, h5, h6, h7]
    rfl
  have hg : getLocation cfg ⟨none, none, ⟨rs, s⟩⟩ lat long =
      ⟨[.getLocationCall lat long,
        .httpGet (Sprintf cfg.fmtG requestFormat [.float lat, .float long, .strPtr cfg.apiKey]),
        .bodyClosed], .ok ()⟩ := by
    unfold getLocation
    simp only [h]
    rfl
  rw [h, hg]
  exact ⟨rfl, rfl, rfl, rfl⟩

/-- C5 amended, at the status `NOT_FOUND` and at the lower-case `ok`. -/
theorem C5_unlisted_status_no_outcome_witness :
    "NOT_FOUND" ∉ listedStatuses ∧ "ok" ∉ listedStatuses ∧
    classifyStatus ⟨[⟨"Stow Lake"⟩], "NOT_FOUND"⟩ = ⟨[], .ok ()⟩ ∧
    classifyStatus ⟨[], "ok"⟩ = ⟨[], .ok ()⟩ :=
  ⟨by decide, by decide,
    (C5_unlisted_status_no_outcome "NOT_FOUND" (by decide) [⟨"Stow Lake"⟩]
      sampleConfig Float64.zero Float64.zero).1,
    (C5_unlisted_status_no_outcome "ok" (by decide) []
      sampleConfig Float64.zero Float64.zero).1⟩

/-- C6 fails on the code: with the status `OK` and an empty results list the
index expression `Results[0]` panics with an index out of range, in the
classification and so in `getLocation`, before any outcome is reported. -/
theorem C6_ok_with_empty_results_panics (cfg : Config) (lat long : Float64)
    (u : Option GoError) :
    classifyStatus ⟨[], "OK"⟩ = ⟨[], .panic .indexOutOfRange⟩ ∧
    (getLocation cfg ⟨none, u, ⟨[], "OK"⟩⟩ lat long).res = .panic .indexOutOfRange ∧
    outcomes (getLocation cfg ⟨none, u, ⟨[], "OK"⟩⟩ lat long).events = [] := by
  cases u <;> exact ⟨rfl, rfl, rfl⟩

/-- C7 fails on the code.  When `client.Do` returns an error, `getLocation`
panics on the nil response (a nil-pointer dereference) and the loop of `main`
ends there, whatever files follow.  When the body is not valid JSON, the error
is logged and the classification then runs on the zero value of the response,
whose empty status reports the `UnknownError` outcome as well. -/
theorem C7_transport_failure_not_contained (cfg : Config) (lat long : Float64)
    (err : GoError) (u : Option GoError) (g : GoogleMapsResp) (later : List Entry) :
    (getLocation cfg ⟨some err, u, g⟩ lat long).res = .panic .nilDereference ∧
    (forRange (sampleFile "a.jpg" sampleExif ⟨some err, u, g⟩ :: later) (loopBody cfg)).res
      = .panic .nilDereference ∧
    handed (forRange (sampleFile "a.jpg" sampleExif ⟨some err, u, g⟩ :: later)
      (loopBody cfg)).events = ["a.jpg"] ∧
    outcomes (getLocation cfg ⟨none, some err, GoogleMapsResp.zero⟩ lat long).events
      = [.UnknownError] ∧
    Event.log .error [.err err] ∈
      (getLocation cfg ⟨none, some err, GoogleMapsResp.zero⟩ lat long).events := by
  refine ⟨rfl, rfl, rfl, rfl, ?_⟩
  rw [show (getLocation cfg ⟨none, some err, GoogleMapsResp.zero⟩ lat long).events =
    [_, _, Event.log .error [.err err], _, _] from rfl]
  simp

/-- C2: when `getExif` has decoded a container and reaches the coordinate
`(lat, long)` of line 133, it calls `getLocation` if and only if `lat` and `long`
are both non-zero, and then once, with that coordinate; when one of them is
zero (in particular for `(0, 0)`) it sends no request, logs the warning
`Can't get location!` and returns without an error. -/
theorem C2_lookup_iff_both_nonzero (cfg : Config) (e : Entry) (x : Exif)
    (lat long : Float64) (err : Option GoError)
    (hopen : e.openErr = none) (hdec : e.decode = .ok x)
    (hfocal : (Rat2 (x.Get .FocalLength).1 0).returned = true)
    (hll : x.LatLong = (lat, long, err)) :
    ((lat, long) ∈ resolved (getExif cfg e).events ↔
      (lat.isZero = false ∧ long.isZero = false)) ∧
    resolved (getExif cfg e).events =
      (if lat.isZero = false ∧ long.isZero = false then [(lat, long)] else []) ∧
    ((lat.isZero = true ∨ long.isZero = true) →
      requests (getExif cfg e).events = [] ∧
      Event.log .warning [.str "Can't get location!"] ∈ (getExif cfg e).events ∧
      (getExif cfg e).res = .ok none) := by
  have hres : resolved (getExif cfg e).events =
      (if lat.isZero = false ∧ long.isZero = false then [(lat, long)] else []) := by
    rw [resolved_getExif]
    simp only [lookupCoordinate, hopen, hdec, hfocal, hll, Float64.neZero]
    by_cases h1 : lat.isZero = false <;> by_cases h2 : long.isZero = false <;>
      simp_all
  refine ⟨?_, hres, ?_⟩
  · rw [hres]
    by_cases h : lat.isZero = false ∧ long.isZero = false
    · simp [h]
    · simp [h]
  · intro hz
    have hn : ¬ ((lat.neZero && long.neZero) = true) := by
      unfold Float64.neZero
      rcases hz with h | h <;> simp [h]
    refine ⟨?_, ?_, ?_⟩
    · rw [requests_getExif]
      simp only [lookupCoordinate, hopen, hdec, hfocal, hll, Float64.neZero]
      rcases hz with h | h <;> simp [h]
    · rw [getExif_of_decoded cfg e x hopen hdec]
      have hr := Rat2_events (x.Get .FocalLength).1 0
      generalize Rat2 (x.Get .FocalLength).1 0 = r at hr hfocal ⊢
      obtain ⟨revs, rres⟩ := r
      rcases rres with v | c | f
      · simp [Proc.andThen, locate, hll, hn, logger, Proc.emit, Proc.ret]
      · simp [Proc.returned] at hfocal
      · simp [Proc.returned] at hfocal
    · rw [getExif_of_decoded cfg e x hopen hdec]
      have hr := Rat2_events (x.Get .FocalLength).1 0
      generalize Rat2 (x.Get .FocalLength).1 0 = r at hr hfocal ⊢
      obtain ⟨revs, rres⟩ := r
      rcases rres with v | c | f
      · simp [Proc.andThen, locate, hll, hn, logger, Proc.emit, Proc.ret]
      · simp [Proc.returned] at hfocal
      · simp [Proc.returned] at hfocal

/-- C2, at a file whose container carries the coordinate (37, -122), and at a
file whose container carries no position, which decodes to (0, 0). -/
theorem C2_lookup_iff_both_nonzero_witness :
    resolved (getExif sampleConfig
        (sampleFile "a.jpg" sampleExif (sampleLookup "OK"))).events =
      [(.finite false 37 0, .finite true 122 0)] ∧
    resolved (getExif sampleConfig
        (sampleFile "n.jpg" ⟨none, some ⟨.ratVal, [(50, 1)]⟩, none, none⟩
          (sampleLookup "OK"))).events = [] :=
  ⟨(C2_lookup_iff_both_nonzero sampleConfig
      (sampleFile "a.jpg" sampleExif (sampleLookup "OK")) sampleExif
      (.finite false 37 0) (.finite true 122 0) none rfl rfl (by decide) rfl).2.1,
    (C2_lookup_iff_both_nonzero sampleConfig
      (sampleFile "n.jpg" ⟨none, some ⟨.ratVal, [(50, 1)]⟩, none, none⟩ (sampleLookup "OK"))
      ⟨none, some ⟨.ratVal, [(50, 1)]⟩, none, none⟩
      Float64.zero Float64.zero (some "exif: tag GPSLatitude is not present")
      rfl rfl (by decide) rfl).2.1⟩

/-- C3 fails on the code: in the walk `sampleWalk` every stat succeeds and no
lookup reports quota exhaustion (both answer `OK`), and both files are regular
files with the extension `.jpg`; the first has no focal-length tag, `getExif`
panics on it, and the second file is never handed to `getExif`. -/
theorem C3_panic_in_extraction_stops_walk :
    sampleWalk.map (fun e => e.stat) = [.ok ⟨false⟩, .ok ⟨false⟩] ∧
    sampleWalk.map (fun e => e.lookup.googleResp.Status) = ["OK", "OK"] ∧
    (sampleWalk.filter (fun e => isCandidate e)).map Entry.path = ["a.jpg", "b.jpg"] ∧
    handed (main sampleConfig sampleWalk none).events = ["a.jpg"] ∧
    (main sampleConfig sampleWalk none).res = .panic .nilDereference := by
  refine ⟨rfl, rfl, by decide, by decide, by decide⟩

/-- C4: when the run reaches a file of the walked list whose lookup answers with
the status `OVER_QUERY_LIMIT`, the process ends there with `os.Exit(1)`: the run
is the same whatever files follow, that file is the last one handed to `getExif`
and its coordinate the last one handed to `getLocation`, and the exit status 1 is
neither 0 nor 2. -/
theorem C4_quota_halts_run (cfg : Config) (hkey : cfg.apiKey.val ≠ "")
    (before after : List Entry) (file : Entry) (walkErr : Option GoError) (x : Exif)
    (hbefore : (forRange before (loopBody cfg)).returned = true)
    (hcand : isCandidate file = true) (hopen : file.openErr = none)
    (hdec : file.decode = .ok x)
    (hfocal : (Rat2 (x.Get .FocalLength).1 0).returned = true)
    (hlat : x.LatLong.1.neZero = true) (hlong : x.LatLong.2.1.neZero = true)
    (hdo : file.lookup.doErr = none)
    (hquota : file.lookup.googleResp.Status = "OVER_QUERY_LIMIT") :
    main cfg (before ++ file :: after) walkErr = main cfg (before ++ [file]) walkErr ∧
    (main cfg (before ++ file :: after) walkErr).res = .exit 1 ∧
    exitStatus (main cfg (before ++ file :: after) walkErr).res ≠ 0 ∧
    exitStatus (main cfg (before ++ file :: after) walkErr).res ≠ 2 ∧
    handed (main cfg (before ++ file :: after) walkErr).events =
      handed (forRange before (loopBody cfg)).events ++ [file.path] ∧
    resolved (main cfg (before ++ file :: after) walkErr).events =
      resolved (forRange before (loopBody cfg)).events ++ [(x.LatLong.1, x.LatLong.2.1)] := by
  have hq := loopBody_quota cfg file x hcand hopen hdec hfocal hlat hlong hdo hquota
  have hh := handed_loopBody cfg file
  have hr : resolved (loopBody cfg file).events = [(x.LatLong.1, x.LatLong.2.1)] := by
    rw [loopBody_of_candidate cfg file hcand]
    have h := resolved_getExif cfg file
    have hl : lookupCoordinate file = some (x.LatLong.1, x.LatLong.2.1) := by
      simp [lookupCoordinate, hopen, hdec, hfocal, hlat, hlong]
    rw [hl] at h
    generalize getExif cfg file = g at h ⊢
    obtain ⟨gevs, gres⟩ := g
    simp only at h
    rcases gres with a | c | f
    · cases a <;>
        simp [Proc.andThen, Proc.ret, logger, Proc.emit, resolved, List.filterMap_append]
        <;> exact h
    · exact h
    · exact h
  rw [if_pos hcand] at hh
  have hstep : ∀ rest : List Entry,
      forRange (before ++ file :: rest) (loopBody cfg) =
        ⟨(forRange before (loopBody cfg)).events ++ (loopBody cfg file).events, .exit 1⟩ := by
    intro rest
    rw [forRange_append, forRange_cons]
    generalize forRange before (loopBody cfg) = b at hbefore ⊢
    generalize loopBody cfg file = l at hq ⊢
    obtain ⟨bevs, bres⟩ := b
    obtain ⟨levs, lres⟩ := l
    simp only at hq
    subst hq
    rcases bres with u | c | f
    · rfl
    · simp [Proc.returned] at hbefore
    · simp [Proc.returned] at hbefore
  rw [main_of_key cfg _ walkErr hkey, main_of_key cfg _ walkErr hkey, hstep after, hstep []]
  refine ⟨rfl, rfl, by simp [exitStatus], by simp [exitStatus], ?_, ?_⟩
  · unfold handed at hh ⊢
    rw [List.filterMap_append, List.filterMap_append, hh]
    cases walkErr <;> rfl
  · unfold resolved at hr ⊢
    rw [List.filterMap_append, List.filterMap_append, hr]
    cases walkErr <;> rfl

/-- C4, at a walk of three files whose second file gets `OVER_QUERY_LIMIT`. -/
theorem C4_quota_halts_run_witness :
    (main sampleConfig
      ([sampleFile "a.jpg" sampleExif (sampleLookup "OK")] ++
        sampleFile "b.jpg" sampleExif (sampleLookup "OVER_QUERY_LIMIT") ::
          [sampleFile "c.jpg" sampleExif (sampleLookup "OK")]) none).res = .exit 1 :=
  (C4_quota_halts_run sampleConfig (by decide)
    [sampleFile "a.jpg" sampleExif (sampleLookup "OK")]
    [sampleFile "c.jpg" sampleExif (sampleLookup "OK")]
    (sampleFile "b.jpg" sampleExif (sampleLookup "OVER_QUERY_LIMIT")) none sampleExif
    (by decide) (by decide) rfl rfl (by decide) (by decide) (by decide) rfl rfl).2.1

/-- C8 fails on the code: when `os.Stat` fails for an element of `fileList`, the
error is logged and `fileInfo.IsDir()` is then called on the nil `FileInfo`,
which panics; the loop ends there, so a later image file that would be handed to
`getExif` without the failing entry is not handed to it. -/
theorem C8_failed_stat_panics (cfg : Config) (path : String) (err : GoError)
    (o : Option GoError) (d : Except GoError Exif) (net : Lookup) (later : List Entry) :
    forRange (⟨path, .error err, o, d, net⟩ :: later) (loopBody cfg) =
      ⟨[.log .error [.err err]], .panic .nilDereference⟩ ∧
    handed (forRange (⟨path, .error err, o, d, net⟩ ::
      [sampleFile "b.jpg" sampleExif (sampleLookup "OK")]) (loopBody cfg)).events = [] ∧
    handed (forRange [sampleFile "b.jpg" sampleExif (sampleLookup "OK")]
      (loopBody cfg)).events = ["b.jpg"] :=
  ⟨rfl, rfl, rfl⟩

/-- C9 fails on the code: for a decoded container without the focal-length tag,
whatever its other facets are, `x.Get` returns a nil tag and `focal.Rat2(0)`
panics with a nil-pointer dereference; `getExif` does not return, and no
coordinate is looked up even when one is present. -/
theorem C9_absent_focal_length_panics (cfg : Config) (path : String)
    (st : Except GoError FileInfo) (model : Option Tag) (dt : Option Time)
    (ll : Option (Float64 × Float64)) (net : Lookup) :
    (getExif cfg ⟨path, st, none, .ok ⟨model, none, dt, ll⟩, net⟩).res
      = .panic .nilDereference ∧
    (getExif cfg ⟨path, st, none, .ok ⟨model, none, dt, ll⟩, net⟩).returned = false ∧
    resolved (getExif cfg ⟨path, st, none, .ok ⟨model, none, dt, ll⟩, net⟩).events = [] :=
  ⟨rfl, rfl, rfl⟩

/-- C10 fails on the code: the operand of `%s` is the pointer `apiKey`, not the
string it points to, so the request URL ends with the bad-verb rendering of the
pointer, `%!s(*string=0x<address>)`; for the key `abc` it is not the URL of the
specification, whatever the address, the coordinate and the answer are. -/
theorem C10_key_operand_is_the_pointer (cfg : Config) (net : Lookup) (lat long : Float64) :
    requests (getLocation cfg net lat long).events =
      [specRequestURL cfg.fmtG lat long
        ("%!s(*string=0x" ++ hexDigits cfg.apiKey.addr ++ ")")] ∧
    (∀ (addr : Nat) (dir : String) (fmtG : Float64 → String),
      requests (getLocation ⟨⟨addr, "abc"⟩, dir, fmtG⟩ net lat long).events ≠
        [specRequestURL fmtG lat long "abc"]) := by
  have h : ∀ c : Config, requests (getLocation c net lat long).events =
      [specRequestURL c.fmtG lat long ("%!s(*string=0x" ++ hexDigits c.apiKey.addr ++ ")")] := by
    intro c
    unfold requests
    rw [getLocation_filterMap _ (fun _ _ => rfl) rfl, sprintf_request]
    rfl
  refine ⟨h cfg, ?_⟩
  intro addr dir fmtG
  rw [h]
  intro hEq
  have h2 := congrArg String.data (List.singleton_injective hEq)
  simp [specRequestURL, String.data_append] at h2

end PhotosLocation
